import Mathlib

/-!
# BOSS `Game`: installation detection and the active-plugin set

A shallow embedding of `src/game.cpp`.  The member functions of `boss::Game`
become functions over an explicit `Game` record; the filesystem, the load-order
provider's handle table and a log of every call made to an external service are
threaded through as a `World`.  The answers given by the external services
(registry, load-order provider, directory creation) are read from an `Env`.
-/

set_option linter.dupNamespace false

namespace boss

/-! ## Constants of the headers -/

/-- The numeric constants of `globals.h` and `libloadorder.h` used by `game.cpp`.
Their values are not fixed by `game.cpp`, so they are taken as parameters. -/
structure Constants where
  BOSS_GAME_AUTODETECT : Nat
  BOSS_GAME_TES4 : Nat
  BOSS_GAME_TES5 : Nat
  BOSS_GAME_FO3 : Nat
  BOSS_GAME_FONV : Nat
  LIBLO_GAME_TES4 : Nat
  LIBLO_GAME_TES5 : Nat
  LIBLO_GAME_FO3 : Nat
  LIBLO_GAME_FNV : Nat
  LIBLO_OK : Nat

/-- A game code is recognised when it is one of the four titles tested by the
constructor. -/
def Recognised (c : Constants) (gameCode : Nat) : Prop :=
  gameCode = c.BOSS_GAME_TES4 ∨ gameCode = c.BOSS_GAME_TES5 ∨
    gameCode = c.BOSS_GAME_FO3 ∨ gameCode = c.BOSS_GAME_FONV

instance (c : Constants) (gameCode : Nat) : Decidable (Recognised c gameCode) := by
  unfold Recognised
  infer_instance

/-! ## Errors -/

/-- The only exception type thrown by `game.cpp`: `std::runtime_error` with its message. -/
inductive Error where
  | runtime_error (what : String)
  deriving DecidableEq, Repr

instance {ε α : Type} [DecidableEq ε] [DecidableEq α] : DecidableEq (Except ε α)
  | Except.ok a, Except.ok b =>
    if h : a = b then isTrue (by rw [h]) else isFalse (fun h2 => h (by injection h2))
  | Except.error a, Except.error b =>
    if h : a = b then isTrue (by rw [h]) else isFalse (fun h2 => h (by injection h2))
  | Except.ok _, Except.error _ => isFalse (fun h => by injection h)
  | Except.error _, Except.ok _ => isFalse (fun h => by injection h)

/-- Thrown at line 83. -/
def InvalidGameIdentifier : Error := Error.runtime_error "Invalid game ID supplied."

/-- Thrown at line 93. -/
def GamePathNotFound : Error := Error.runtime_error "Game path could not be detected."

/-- Thrown at lines 140 and 143. -/
def LoadOrderQueryFailed : Error := Error.runtime_error "Active plugin list lookup failed."

/-- Thrown at line 162. -/
def DirectoryCreationFailed : Error :=
  Error.runtime_error "Could not create BOSS folder for game."

/-! ## The outside world -/

/-- Kind of a filesystem entry. -/
inductive file_type where
  | regular_file
  | directory_file
  deriving DecidableEq, Repr

/-- One call made to an external service. -/
inductive Effect where
  | fs_exists (p : String)
  | fs_create_directory (p : String)
  | RegKeyExists (root key sub : String)
  | RegKeyStringValue (root key sub : String)
  | lo_create_handle (gameType : Nat) (path : String)
  | lo_get_active_plugins (gh : Nat)
  deriving DecidableEq, Repr

/-- Whether a call went to the registry. -/
def Effect.isRegistry : Effect → Bool
  | Effect.RegKeyExists _ _ _ => true
  | Effect.RegKeyStringValue _ _ _ => true
  | _ => false

/-- Whether a call was an attempt to create a directory. -/
def Effect.isCreation : Effect → Bool
  | Effect.fs_create_directory _ => true
  | _ => false

/-- Answers of the external collaborators.  `lo_create_handle` yields a return code
and a handle, `lo_get_active_plugins` a return code and the plugin array.
`create_directory_fails` marks the paths at which the operating system refuses to
make a directory, `exists_fails` the paths at which the status query of `fs::exists`
raises `fs::filesystem_error`.  `uninit_ret` and `uninit_gh` are the indeterminate values of the
locals `ret` and `gh` of `RefreshActivePluginsList` when no branch assigns them. -/
structure Env where
  RegKeyExists : String → String → String → Bool
  RegKeyStringValue : String → String → String → String
  lo_create_handle : Nat → String → Nat × Nat
  lo_get_active_plugins : Nat → Nat × List String
  create_directory_fails : String → Bool
  exists_fails : String → Bool
  uninit_ret : Nat
  uninit_gh : Nat

/-- Mutable surroundings: the filesystem entries, the provider handles that have been
created and not destroyed, and the log of external calls. -/
structure World where
  entries : List (String × file_type)
  openHandles : List Nat
  log : List Effect
  deriving DecidableEq

/-- Append a call to the log. -/
def World.record (w : World) (e : Effect) : World :=
  { w with log := w.log ++ [e] }

/-- The calls logged in `w2` since `w1`. -/
def World.since (w2 w1 : World) : List Effect :=
  w2.log.drop w1.log.length

/-- Status of a path: `fs::status`. -/
def World.status (w : World) (p : String) : Option file_type :=
  w.entries.lookup p

/-- Whether a directory is present at `p`: `fs::is_directory`. -/
def World.is_directory (w : World) (p : String) : Bool :=
  w.status p == some file_type.directory_file

/-- The call `fs::exists(p)` when the status query answers. -/
def fs_exists (p : String) (w : World) : Bool × World :=
  ((w.status p).isSome, w.record (Effect.fs_exists p))

/-- The call `fs::exists(p)` inside a `try` block: `none` stands for the
`fs::filesystem_error` raised when the status query fails, `some b` for the answer. -/
def fs_exists_try (env : Env) (p : String) (w : World) : Option Bool × World :=
  if env.exists_fails p then (none, w.record (Effect.fs_exists p))
  else ((fs_exists p w).1, (fs_exists p w).2)

/-- The call `fs::create_directory(p)`: `some true` when the directory was made,
`some false` when a directory was already there, `none` for `fs::filesystem_error`. -/
def fs_create_directory (env : Env) (p : String) (w : World) : Option Bool × World :=
  let w1 := w.record (Effect.fs_create_directory p)
  match w.status p with
  | some file_type.directory_file => (some false, w1)
  | some file_type.regular_file => (none, w1)
  | none =>
    if env.create_directory_fails p then (none, w1)
    else (some true, { w1 with entries := (p, file_type.directory_file) :: w1.entries })

/-- The expression `a / b` on `fs::path`, for relative `b`. -/
def path_append (a b : String) : String :=
  if b = "" then a else if a = "" then b else a ++ "/" ++ b

/-- The call `RegKeyExists(root, key, sub)` of `helpers.h`. -/
def RegKeyExists (env : Env) (root key sub : String) (w : World) : Bool × World :=
  (env.RegKeyExists root key sub, w.record (Effect.RegKeyExists root key sub))

/-- The call `RegKeyStringValue(root, key, sub)` of `helpers.h`. -/
def RegKeyStringValue (env : Env) (root key sub : String) (w : World) : String × World :=
  (env.RegKeyStringValue root key sub, w.record (Effect.RegKeyStringValue root key sub))

/-- The call `lo_create_handle(&gh, gameType, path)`: return code, handle, world.  A
handle is open from the moment the provider returns `LIBLO_OK` for it. -/
def lo_create_handle (c : Constants) (env : Env) (gameType : Nat) (path : String)
    (w : World) : Nat × Nat × World :=
  let r := env.lo_create_handle gameType path
  let w1 := w.record (Effect.lo_create_handle gameType path)
  (r.1, r.2, if r.1 = c.LIBLO_OK then { w1 with openHandles := r.2 :: w1.openHandles } else w1)

/-- The call `lo_get_active_plugins(gh, &pluginArr, &pluginArrSize)`. -/
def lo_get_active_plugins (env : Env) (gh : Nat) (w : World) : Nat × List String × World :=
  let r := env.lo_get_active_plugins gh
  (r.1, r.2, w.record (Effect.lo_get_active_plugins gh))

/-- The function `boost::to_lower_copy` in the classic locale. -/
def to_lower_copy (s : String) : String := String.mk (s.data.map Char.toLower)

/-- The function `boost::to_upper_copy` in the classic locale. -/
def to_upper_copy (s : String) : String := String.mk (s.data.map Char.toUpper)

/-! ## The `Game` record -/

/-- Data members of `boss::Game`. -/
structure Game where
  id : Nat
  name : String
  registryKey : String
  registrySubKey : String
  bossFolderName : String
  pluginsFolderName : String
  gamePath : String
  activePlugins : Finset String

/-- The member initialiser `id(gameCode)` with every other member default-initialised. -/
def Game.withId (gameCode : Nat) : Game :=
  { id := gameCode, name := "", registryKey := "", registrySubKey := "",
    bossFolderName := "", pluginsFolderName := "", gamePath := "", activePlugins := ∅ }

/-- The default constructor `Game::Game()` (line 45). -/
def Game.autodetect (c : Constants) : Game := Game.withId c.BOSS_GAME_AUTODETECT

/-- The accessor `Game::Id` (line 109). -/
def Game.Id (g : Game) : Nat := g.id

/-- The accessor `Game::Name` (line 113). -/
def Game.Name (g : Game) : String := g.name

/-- The accessor `Game::GamePath` (line 117). -/
def Game.GamePath (g : Game) : String := g.gamePath

/-- The accessor `Game::DataPath` (line 121). -/
def Game.DataPath (g : Game) : String := path_append g.GamePath g.pluginsFolderName

/-- The query `Game::IsInstalledLocally` (line 105).  No `try` block of `game.cpp`
encloses this call of `fs::exists`; it is taken where the status query answers. -/
def Game.IsInstalledLocally (g : Game) (w : World) : Bool × World :=
  fs_exists (path_append ".." g.pluginsFolderName) w

/-- The query `Game::IsInstalled` (line 101); `||` evaluates its right operand only
when the left one is false. -/
def Game.IsInstalled (env : Env) (g : Game) (w : World) : Bool × World :=
  let l := g.IsInstalledLocally w
  if l.1 then (true, l.2)
  else RegKeyExists env "HKEY_LOCAL_MACHINE" g.registryKey g.registrySubKey l.2

/-- Lines 130 to 137 of `Game::RefreshActivePluginsList`: the handle is requested with
the provider's tag of the title; with an id outside the four titles no branch runs
and `ret`, `gh` keep their indeterminate values. -/
def Game.createHandle (c : Constants) (env : Env) (g : Game) (w : World) :
    Nat × Nat × World :=
  if g.id = c.BOSS_GAME_TES4 then lo_create_handle c env c.LIBLO_GAME_TES4 g.gamePath w
  else if g.id = c.BOSS_GAME_TES5 then lo_create_handle c env c.LIBLO_GAME_TES5 g.gamePath w
  else if g.id = c.BOSS_GAME_FO3 then lo_create_handle c env c.LIBLO_GAME_FO3 g.gamePath w
  else if g.id = c.BOSS_GAME_FONV then lo_create_handle c env c.LIBLO_GAME_FNV g.gamePath w
  else (env.uninit_ret, env.uninit_gh, w)

/-- The loop of lines 145 to 147: each array element is inserted as it is. -/
def insertAll (activePlugins : Finset String) (pluginArr : List String) : Finset String :=
  pluginArr.foldl (fun s p => insert p s) activePlugins

/-- The method `Game::RefreshActivePluginsList` (line 125).  The result is the outcome
(returned or thrown), the object after the call and the world after the call. -/
def Game.RefreshActivePluginsList (c : Constants) (env : Env) (g : Game) (w : World) :
    Except Error Unit × Game × World :=
  let h := g.createHandle c env w
  if h.1 ≠ c.LIBLO_OK then
    (Except.error LoadOrderQueryFailed, g, h.2.2)
  else
    let a := lo_get_active_plugins env h.2.1 h.2.2
    if a.1 ≠ c.LIBLO_OK then
      (Except.error LoadOrderQueryFailed, g, a.2.2)
    else
      (Except.ok (), { g with activePlugins := insertAll g.activePlugins a.2.1 }, a.2.2)

/-- The method `Game::IsActive` (line 152). -/
def Game.IsActive (g : Game) (plugin : String) : Bool :=
  decide (to_lower_copy plugin ∈ g.activePlugins)

/-- The method `Game::CreateBOSSGameFolder` (line 156).  The `try` block encloses both
`fs::exists` and `fs::create_directory`; a `fs::filesystem_error` from either is caught
and rethrown as the folder error. -/
def Game.CreateBOSSGameFolder (env : Env) (g : Game) (w : World) :
    Except Error Unit × World :=
  let e := fs_exists_try env g.bossFolderName w
  match e.1 with
  | none => (Except.error DirectoryCreationFailed, e.2)
  | some b =>
    if !b then
      let r := fs_create_directory env g.bossFolderName e.2
      match r.1 with
      | none => (Except.error DirectoryCreationFailed, r.2)
      | some _ => (Except.ok (), r.2)
    else (Except.ok (), e.2)

/-- Both provider calls made by a refresh of `g` in `w` return `LIBLO_OK`. -/
def providerSucceeds (c : Constants) (env : Env) (g : Game) (w : World) : Prop :=
  (g.createHandle c env w).1 = c.LIBLO_OK ∧
    (env.lo_get_active_plugins (g.createHandle c env w).2.1).1 = c.LIBLO_OK

instance (c : Constants) (env : Env) (g : Game) (w : World) :
    Decidable (providerSucceeds c env g w) := by
  unfold providerSucceeds
  infer_instance

/-- Lines 50 to 83 of the constructor: the members set for each title, or the
exception for any other id. -/
def Game.title (c : Constants) (gameCode : Nat) : Except Error Game :=
  let g := Game.withId gameCode
  if g.Id = c.BOSS_GAME_TES4 then
    Except.ok { g with
      name := "TES IV: Oblivion"
      registryKey := "Software\\Bethesda Softworks\\Oblivion"
      registrySubKey := "Installed Path"
      bossFolderName := "Oblivion"
      pluginsFolderName := "Data" }
  else if g.Id = c.BOSS_GAME_TES5 then
    Except.ok { g with
      name := "TES V: Skyrim"
      registryKey := "Software\\Bethesda Softworks\\Skyrim"
      registrySubKey := "Installed Path"
      bossFolderName := "Skyrim"
      pluginsFolderName := "Data" }
  else if g.Id = c.BOSS_GAME_FO3 then
    Except.ok { g with
      name := "Fallout 3"
      registryKey := "Software\\Bethesda Softworks\\Fallout3"
      registrySubKey := "Installed Path"
      bossFolderName := "Fallout 3"
      pluginsFolderName := "Data" }
  else if g.Id = c.BOSS_GAME_FONV then
    Except.ok { g with
      name := "Fallout: New Vegas"
      registryKey := "Software\\Bethesda Softworks\\FalloutNV"
      registrySubKey := "Installed Path"
      bossFolderName := "Fallout New Vegas"
      pluginsFolderName := "Data" }
  else Except.error InvalidGameIdentifier

/-- Lines 86 to 95 of the constructor: the value assigned to `gamePath`, or the
exception when neither the local check nor the registry finds the game. -/
def Game.resolvePath (env : Env) (g : Game) (path : String) (w : World) :
    Except Error String × World :=
  if path = "" then
    let l := g.IsInstalledLocally w
    if l.1 then (Except.ok "..", l.2)
    else
      let k := RegKeyExists env "HKEY_LOCAL_MACHINE" g.registryKey g.registrySubKey l.2
      if k.1 then
        let v := RegKeyStringValue env "HKEY_LOCAL_MACHINE" g.registryKey g.registrySubKey k.2
        (Except.ok v.1, v.2)
      else (Except.error GamePathNotFound, k.2)
  else (Except.ok path, w)

/-- The constructor `Game::Game(gameCode, path, noPathInit)` (line 48): the object on
normal return or the exception thrown, and the world afterwards. -/
def Game.Game (c : Constants) (env : Env) (gameCode : Nat) (path : String)
    (noPathInit : Bool) (w : World) : Except Error Game × World :=
  match Game.title c gameCode with
  | Except.error e => (Except.error e, w)
  | Except.ok g =>
    if !noPathInit then
      match Game.resolvePath env g path w with
      | (Except.error e, w1) => (Except.error e, w1)
      | (Except.ok p, w1) =>
        let r := Game.RefreshActivePluginsList c env { g with gamePath := p } w1
        match r.1 with
        | Except.error e => (Except.error e, r.2.2)
        | Except.ok _ => (Except.ok r.2.1, r.2.2)
    else (Except.ok g, w)

/-! ## Sample surroundings used to evaluate the code -/

/-- A sample assignment of the header constants. -/
def sampleConstants : Constants :=
  { BOSS_GAME_AUTODETECT := 0, BOSS_GAME_TES4 := 1, BOSS_GAME_TES5 := 2,
    BOSS_GAME_FO3 := 3, BOSS_GAME_FONV := 4,
    LIBLO_GAME_TES4 := 1, LIBLO_GAME_TES5 := 2, LIBLO_GAME_FO3 := 3, LIBLO_GAME_FNV := 4,
    LIBLO_OK := 0 }

/-- The members set by the constructor for Skyrim under the sample constants. -/
def skyrimTitle : Game :=
  { id := 2, name := "TES V: Skyrim",
    registryKey := "Software\\Bethesda Softworks\\Skyrim",
    registrySubKey := "Installed Path", bossFolderName := "Skyrim",
    pluginsFolderName := "Data", gamePath := "", activePlugins := ∅ }

/-- A Skyrim object at `/games/Skyrim` whose set already holds `old.esp`. -/
def sampleGame : Game :=
  { skyrimTitle with gamePath := "/games/Skyrim", activePlugins := {"old.esp"} }

/-- The Skyrim object the constructor builds at `/games/Skyrim` from the provider's
answer `Skyrim.esm`, `Update.esm`. -/
def skyrimConstructed : Game :=
  { skyrimTitle with
    gamePath := "/games/Skyrim"
    activePlugins := (insertAll ∅ ["Skyrim.esm", "Update.esm"]) }

/-- A world with nothing on disk, no open handle and an empty log. -/
def emptyWorld : World := { entries := [], openHandles := [], log := [] }

/-- A world whose disk holds the installation `/games/Skyrim` with its `Data` folder and
nothing at `../Data`. -/
def skyrimOnDisk : World :=
  { entries := [("/games/Skyrim", file_type.directory_file),
      ("/games/Skyrim/Data", file_type.directory_file)],
    openHandles := [], log := [] }

/-- A provider that opens handle 7 and reports `plugins`; no registry entries; directory
creation always permitted. -/
def providerReturning (plugins : List String) : Env :=
  { RegKeyExists := fun _ _ _ => false
    RegKeyStringValue := fun _ _ _ => ""
    lo_create_handle := fun _ _ => (0, 7)
    lo_get_active_plugins := fun _ => (0, plugins)
    create_directory_fails := fun _ => false
    exists_fails := fun _ => false
    uninit_ret := 0
    uninit_gh := 0 }

/-- A provider returning `plugins` on a machine whose registry holds the installation
path `C:\\Games\\Skyrim` under every key. -/
def registryEnv (plugins : List String) : Env :=
  { providerReturning plugins with
    RegKeyExists := fun _ _ _ => true
    RegKeyStringValue := fun _ _ _ => "C:\\Games\\Skyrim" }

/-- A world whose disk holds the folder `../Data`. -/
def localInstallWorld : World :=
  { entries := [("../Data", file_type.directory_file)], openHandles := [], log := [] }

/-- A world whose disk holds a regular file named `Skyrim`. -/
def fileNamedSkyrim : World :=
  { entries := [("Skyrim", file_type.regular_file)], openHandles := [], log := [] }

/-- A provider whose handle creation returns the non-OK code `createRet`. -/
def providerFailingCreate (createRet : Nat) : Env :=
  { providerReturning [] with lo_create_handle := fun _ _ => (createRet, 0) }

/-- A provider whose enumeration returns the non-OK code `enumRet`. -/
def providerFailingEnum (enumRet : Nat) : Env :=
  { providerReturning [] with lo_get_active_plugins := fun _ => (enumRet, []) }

/-! ## Auxiliary facts -/

theorem title_error (c : Constants) (gameCode : Nat) (h : ¬ Recognised c gameCode) :
    Game.title c gameCode = Except.error InvalidGameIdentifier := by
  unfold Recognised at h
  simp only [not_or] at h
  obtain ⟨h1, h2, h3, h4⟩ := h
  simp [Game.title, Game.Id, Game.withId, h1, h2, h3, h4]

theorem title_ok (c : Constants) (gameCode : Nat) (h : Recognised c gameCode) :
    ∃ t, Game.title c gameCode = Except.ok t ∧ t.id = gameCode ∧ t.name ≠ "" ∧
      t.pluginsFolderName = "Data" ∧ t.gamePath = "" ∧ t.activePlugins = ∅ := by
  unfold Game.title
  simp only [Game.Id, Game.withId]
  split_ifs with h1 h2 h3 h4
  · exact ⟨_, rfl, rfl, by simp, rfl, rfl, rfl⟩
  · exact ⟨_, rfl, rfl, by simp, rfl, rfl, rfl⟩
  · exact ⟨_, rfl, rfl, by simp, rfl, rfl, rfl⟩
  · exact ⟨_, rfl, rfl, by simp, rfl, rfl, rfl⟩
  · exact absurd h (by unfold Recognised; simp [h1, h2, h3, h4])

theorem insertAll_eq (s : Finset String) (l : List String) :
    insertAll s l = s ∪ l.toFinset := by
  unfold insertAll
  induction l generalizing s with
  | nil => simp
  | cons a t ih =>
    rw [List.foldl_cons, ih]
    ext x
    simp only [Finset.mem_union, Finset.mem_insert, List.toFinset_cons]
    tauto

theorem refresh_fail (c : Constants) (env : Env) (g : Game) (w : World)
    (h : (g.createHandle c env w).1 ≠ c.LIBLO_OK ∨
      (env.lo_get_active_plugins (g.createHandle c env w).2.1).1 ≠ c.LIBLO_OK) :
    (g.RefreshActivePluginsList c env w).1 = Except.error LoadOrderQueryFailed ∧
      (g.RefreshActivePluginsList c env w).2.1 = g := by
  unfold Game.RefreshActivePluginsList
  by_cases h1 : (g.createHandle c env w).1 = c.LIBLO_OK
  · have h2 : (env.lo_get_active_plugins (g.createHandle c env w).2.1).1 ≠ c.LIBLO_OK := by
      rcases h with h | h
      · exact absurd h1 h
      · exact h
    simp [h1, h2, lo_get_active_plugins]
  · simp [h1]

theorem refresh_ok (c : Constants) (env : Env) (g : Game) (w : World)
    (h1 : (g.createHandle c env w).1 = c.LIBLO_OK)
    (h2 : (env.lo_get_active_plugins (g.createHandle c env w).2.1).1 = c.LIBLO_OK) :
    g.RefreshActivePluginsList c env w =
      (Except.ok (),
        { g with activePlugins := (insertAll g.activePlugins
            (env.lo_get_active_plugins (g.createHandle c env w).2.1).2) },
        (g.createHandle c env w).2.2.record
          (Effect.lo_get_active_plugins (g.createHandle c env w).2.1)) := by
  unfold Game.RefreshActivePluginsList
  simp [h1, h2, lo_get_active_plugins]

theorem refresh_outcome (c : Constants) (env : Env) (g : Game) (w : World) :
    (g.RefreshActivePluginsList c env w).1 = Except.ok () ∨
      (g.RefreshActivePluginsList c env w).1 = Except.error LoadOrderQueryFailed := by
  by_cases h1 : (g.createHandle c env w).1 = c.LIBLO_OK
  · by_cases h2 : (env.lo_get_active_plugins (g.createHandle c env w).2.1).1 = c.LIBLO_OK
    · left
      rw [refresh_ok c env g w h1 h2]
    · right
      exact (refresh_fail c env g w (Or.inr h2)).1
  · right
    exact (refresh_fail c env g w (Or.inl h1)).1

theorem resolvePath_outcome (env : Env) (g : Game) (path : String) (w : World) :
    (∃ p, (Game.resolvePath env g path w).1 = Except.ok p) ∨
      (Game.resolvePath env g path w).1 = Except.error GamePathNotFound := by
  unfold Game.resolvePath
  dsimp only
  split_ifs
  · exact Or.inl ⟨_, rfl⟩
  · exact Or.inl ⟨_, rfl⟩
  · exact Or.inr rfl
  · exact Or.inl ⟨_, rfl⟩

theorem Game_deferred (c : Constants) (env : Env) (gameCode : Nat) (path : String)
    (w : World) (t : Game) (ht : Game.title c gameCode = Except.ok t) :
    Game.Game c env gameCode path true w = (Except.ok t, w) := by
  simp [Game.Game, ht]

theorem Game_path_error (c : Constants) (env : Env) (gameCode : Nat) (path : String)
    (w : World) (t : Game) (ht : Game.title c gameCode = Except.ok t) (e : Error)
    (hp : (Game.resolvePath env t path w).1 = Except.error e) :
    Game.Game c env gameCode path false w = (Except.error e, (Game.resolvePath env t path w).2) := by
  unfold Game.Game
  rw [ht]
  rcases hr : Game.resolvePath env t path w with ⟨r, w1⟩
  rw [hr] at hp
  simp only at hp
  subst hp
  simp [hr]

theorem Game_resolved (c : Constants) (env : Env) (gameCode : Nat) (path : String)
    (w : World) (t : Game) (ht : Game.title c gameCode = Except.ok t) (p : String)
    (hp : (Game.resolvePath env t path w).1 = Except.ok p) :
    Game.Game c env gameCode path false w =
      (match (Game.RefreshActivePluginsList c env { t with gamePath := p }
          (Game.resolvePath env t path w).2).1 with
        | Except.error e => Except.error e
        | Except.ok _ =>
          Except.ok (Game.RefreshActivePluginsList c env { t with gamePath := p }
            (Game.resolvePath env t path w).2).2.1,
        (Game.RefreshActivePluginsList c env { t with gamePath := p }
          (Game.resolvePath env t path w).2).2.2) := by
  unfold Game.Game
  rw [ht]
  rcases hr : Game.resolvePath env t path w with ⟨r, w1⟩
  rw [hr] at hp
  simp only at hp
  subst hp
  simp only [hr]
  rcases hq : (Game.RefreshActivePluginsList c env { t with gamePath := p } w1).1 with e | u
  · simp [hq]
  · simp [hq]

theorem createHandle_recognised (c : Constants) (env : Env) (g : Game) (w : World)
    (h : Recognised c g.id) :
    ∃ ty, g.createHandle c env w = lo_create_handle c env ty g.gamePath w := by
  unfold Game.createHandle
  split_ifs with h1 h2 h3 h4
  · exact ⟨_, rfl⟩
  · exact ⟨_, rfl⟩
  · exact ⟨_, rfl⟩
  · exact ⟨_, rfl⟩
  · exact absurd h (by unfold Recognised; simp [h1, h2, h3, h4])

theorem createHandle_world (c : Constants) (env : Env) (g : Game) (w : World) :
    ∃ l hs, (g.createHandle c env w).2.2.log = w.log ++ l ∧
      (g.createHandle c env w).2.2.openHandles = hs ++ w.openHandles ∧
      (g.createHandle c env w).2.2.entries = w.entries ∧
      ∀ e ∈ l, e.isRegistry = false ∧ e.isCreation = false := by
  have key : ∀ ty, ∃ l hs, (lo_create_handle c env ty g.gamePath w).2.2.log = w.log ++ l ∧
      (lo_create_handle c env ty g.gamePath w).2.2.openHandles = hs ++ w.openHandles ∧
      (lo_create_handle c env ty g.gamePath w).2.2.entries = w.entries ∧
      ∀ e ∈ l, e.isRegistry = false ∧ e.isCreation = false := by
    intro ty
    unfold lo_create_handle
    dsimp only
    split_ifs
    · exact ⟨[Effect.lo_create_handle ty g.gamePath], [(env.lo_create_handle ty g.gamePath).2],
        rfl, rfl, rfl, by simp [Effect.isRegistry, Effect.isCreation]⟩
    · exact ⟨[Effect.lo_create_handle ty g.gamePath], [], rfl, rfl, rfl,
        by simp [Effect.isRegistry, Effect.isCreation]⟩
  unfold Game.createHandle
  split_ifs
  · exact key _
  · exact key _
  · exact key _
  · exact key _
  · exact ⟨[], [], by simp, by simp, rfl, by simp⟩

theorem refresh_world (c : Constants) (env : Env) (g : Game) (w : World) :
    ∃ l hs, (g.RefreshActivePluginsList c env w).2.2.log = w.log ++ l ∧
      (g.RefreshActivePluginsList c env w).2.2.openHandles = hs ++ w.openHandles ∧
      (g.RefreshActivePluginsList c env w).2.2.entries = w.entries ∧
      ∀ e ∈ l, e.isRegistry = false ∧ e.isCreation = false := by
  obtain ⟨l, hs, h1, h2, h3, h4⟩ := createHandle_world c env g w
  unfold Game.RefreshActivePluginsList
  dsimp only
  split_ifs
  · exact ⟨l, hs, h1, h2, h3, h4⟩
  · refine ⟨l ++ [Effect.lo_get_active_plugins (g.createHandle c env w).2.1], hs, ?_, h2, h3, ?_⟩
    · simp [lo_get_active_plugins, World.record, h1]
    · intro e he
      rcases List.mem_append.1 he with he | he
      · exact h4 e he
      · rw [List.mem_singleton.1 he]; simp [Effect.isRegistry, Effect.isCreation]
  · refine ⟨l ++ [Effect.lo_get_active_plugins (g.createHandle c env w).2.1], hs, ?_, h2, h3, ?_⟩
    · simp [lo_get_active_plugins, World.record, h1]
    · intro e he
      rcases List.mem_append.1 he with he | he
      · exact h4 e he
      · rw [List.mem_singleton.1 he]; simp [Effect.isRegistry, Effect.isCreation]

theorem refresh_fields (c : Constants) (env : Env) (g : Game) (w : World) :
    (g.RefreshActivePluginsList c env w).2.1 =
      { g with activePlugins := (g.RefreshActivePluginsList c env w).2.1.activePlugins } := by
  unfold Game.RefreshActivePluginsList
  dsimp only
  split_ifs <;> rfl

theorem Game_ok_fields (c : Constants) (env : Env) (gameCode : Nat) (path : String)
    (w : World) (t : Game) (ht : Game.title c gameCode = Except.ok t) (p : String)
    (hp : (Game.resolvePath env t path w).1 = Except.ok p) (g : Game)
    (hg : (Game.Game c env gameCode path false w).1 = Except.ok g) :
    g = { t with gamePath := p, activePlugins := g.activePlugins } := by
  rw [Game_resolved c env gameCode path w t ht p hp] at hg
  rcases hq : (Game.RefreshActivePluginsList c env { t with gamePath := p }
      (Game.resolvePath env t path w).2).1 with e | u
  · rw [hq] at hg
    simp at hg
  · rw [hq] at hg
    simp only [Except.ok.injEq] at hg
    have hf := refresh_fields c env { t with gamePath := p } (Game.resolvePath env t path w).2
    rw [hg] at hf
    exact hf

theorem Game_invalid (c : Constants) (env : Env) (gameCode : Nat) (path : String)
    (noPathInit : Bool) (w : World) (h : ¬ Recognised c gameCode) :
    Game.Game c env gameCode path noPathInit w = (Except.error InvalidGameIdentifier, w) := by
  simp [Game.Game, title_error c gameCode h]

theorem path_append_data : path_append ".." "Data" = "../Data" := by decide

theorem status_record (w : World) (e : Effect) (p : String) :
    (w.record e).status p = w.status p := rfl

theorem installedLocally_eq (t : Game) (w : World) (hd : t.pluginsFolderName = "Data") :
    t.IsInstalledLocally w =
      ((w.status "../Data").isSome, w.record (Effect.fs_exists "../Data")) := by
  unfold Game.IsInstalledLocally fs_exists
  rw [hd, path_append_data]

theorem Game_not_path_error (c : Constants) (env : Env) (gameCode : Nat) (path : String)
    (w : World) (t : Game) (ht : Game.title c gameCode = Except.ok t) (p : String)
    (hp : (Game.resolvePath env t path w).1 = Except.ok p) :
    (Game.Game c env gameCode path false w).1 ≠ Except.error GamePathNotFound := by
  rw [Game_resolved c env gameCode path w t ht p hp]
  rcases refresh_outcome c env { t with gamePath := p }
    (Game.resolvePath env t path w).2 with hr | hr
  · rw [hr]; simp
  · rw [hr]; simp [LoadOrderQueryFailed, GamePathNotFound]

theorem fs_create_directory_absent (env : Env) (p : String) (w : World)
    (hs : w.status p = none) (hf : env.create_directory_fails p = false) :
    fs_create_directory env p w =
      (some true, { w.record (Effect.fs_create_directory p) with
        entries := (p, file_type.directory_file) :: w.entries }) := by
  unfold fs_create_directory
  simp [hs, hf, World.record]

theorem fs_create_directory_refused (env : Env) (p : String) (w : World)
    (hs : w.status p = none) (hf : env.create_directory_fails p = true) :
    fs_create_directory env p w = (none, w.record (Effect.fs_create_directory p)) := by
  unfold fs_create_directory
  simp [hs, hf]

theorem fs_exists_try_answers (env : Env) (p : String) (w : World)
    (hx : env.exists_fails p = false) :
    fs_exists_try env p w = (some (w.status p).isSome, w.record (Effect.fs_exists p)) := by
  simp [fs_exists_try, fs_exists, hx]

theorem fs_exists_try_raises (env : Env) (p : String) (w : World)
    (hx : env.exists_fails p = true) :
    fs_exists_try env p w = (none, w.record (Effect.fs_exists p)) := by
  simp [fs_exists_try, hx]

theorem createFolder_no_attempt (env : Env) (g : Game) (w : World)
    (h : (w.status g.bossFolderName).isSome = true) :
    (g.CreateBOSSGameFolder env w).2 = w.record (Effect.fs_exists g.bossFolderName) := by
  unfold Game.CreateBOSSGameFolder
  cases hx : env.exists_fails g.bossFolderName with
  | true => simp only [fs_exists_try_raises env _ w hx]
  | false => simp [fs_exists_try_answers env _ w hx, h]

theorem createFolder_present (env : Env) (g : Game) (w : World)
    (h : (w.status g.bossFolderName).isSome = true)
    (hx : env.exists_fails g.bossFolderName = false) :
    g.CreateBOSSGameFolder env w =
      (Except.ok (), w.record (Effect.fs_exists g.bossFolderName)) := by
  unfold Game.CreateBOSSGameFolder
  simp [fs_exists_try_answers env _ w hx, h]

theorem createFolder_ok_answers (env : Env) (g : Game) (w : World)
    (h : (g.CreateBOSSGameFolder env w).1 = Except.ok ()) :
    env.exists_fails g.bossFolderName = false := by
  cases hx : env.exists_fails g.bossFolderName with
  | false => rfl
  | true =>
    unfold Game.CreateBOSSGameFolder at h
    simp only [fs_exists_try_raises env _ w hx] at h
    simp at h

theorem createFolder_first (env : Env) (g : Game) (w : World)
    (h : (g.CreateBOSSGameFolder env w).1 = Except.ok ()) :
    ((g.CreateBOSSGameFolder env w).2.status g.bossFolderName).isSome = true ∧
      (w.status g.bossFolderName ≠ some file_type.regular_file →
        (g.CreateBOSSGameFolder env w).2.is_directory g.bossFolderName = true) := by
  have hx := createFolder_ok_answers env g w h
  rcases hs : w.status g.bossFolderName with _ | ft
  · have he : fs_exists_try env g.bossFolderName w =
        (some false, w.record (Effect.fs_exists g.bossFolderName)) := by
      rw [fs_exists_try_answers env _ w hx, hs]; rfl
    have hs2 : (w.record (Effect.fs_exists g.bossFolderName)).status g.bossFolderName =
        none := hs
    cases hf : env.create_directory_fails g.bossFolderName with
    | true =>
      have hc := fs_create_directory_refused env g.bossFolderName _ hs2 hf
      unfold Game.CreateBOSSGameFolder at h
      simp only [he, hc] at h
      simp at h
    | false =>
      have hc := fs_create_directory_absent env g.bossFolderName _ hs2 hf
      have hr : g.CreateBOSSGameFolder env w = (Except.ok (),
          { (w.record (Effect.fs_exists g.bossFolderName)).record
              (Effect.fs_create_directory g.bossFolderName) with
            entries := (g.bossFolderName, file_type.directory_file) :: w.entries }) := by
        unfold Game.CreateBOSSGameFolder
        simp only [he, hc]
        rfl
      rw [hr]
      simp [World.status, World.is_directory, List.lookup]
  · have hp : (w.status g.bossFolderName).isSome = true := by rw [hs]; rfl
    rw [createFolder_present env g w hp hx, status_record, hs]
    refine ⟨rfl, ?_⟩
    intro hne
    cases ft with
    | regular_file => exact absurd rfl hne
    | directory_file => simp [World.is_directory, status_record, hs]

theorem refresh_log_recognised (c : Constants) (env : Env) (g : Game) (w : World)
    (h : Recognised c g.id) :
    ∃ ty l, (g.RefreshActivePluginsList c env w).2.2.log =
      w.log ++ Effect.lo_create_handle ty g.gamePath :: l := by
  obtain ⟨ty, hty⟩ := createHandle_recognised c env g w h
  have hlog : (g.createHandle c env w).2.2.log =
      w.log ++ [Effect.lo_create_handle ty g.gamePath] := by
    rw [hty]
    unfold lo_create_handle
    dsimp only
    split_ifs <;> rfl
  unfold Game.RefreshActivePluginsList
  dsimp only
  split_ifs
  · exact ⟨ty, [], hlog⟩
  · exact ⟨ty, [Effect.lo_get_active_plugins (g.createHandle c env w).2.1], by
      simp [lo_get_active_plugins, World.record, hlog]⟩
  · exact ⟨ty, [Effect.lo_get_active_plugins (g.createHandle c env w).2.1], by
      simp [lo_get_active_plugins, World.record, hlog]⟩

theorem Game_resolved_outcome (c : Constants) (env : Env) (gameCode : Nat) (path : String)
    (w : World) (t : Game) (ht : Game.title c gameCode = Except.ok t) (p : String)
    (hp : (Game.resolvePath env t path w).1 = Except.ok p) :
    (providerSucceeds c env { t with gamePath := p } (Game.resolvePath env t path w).2 →
      ∃ g, (Game.Game c env gameCode path false w).1 = Except.ok g ∧ g.gamePath = p) ∧
    (¬ providerSucceeds c env { t with gamePath := p } (Game.resolvePath env t path w).2 →
      (Game.Game c env gameCode path false w).1 = Except.error LoadOrderQueryFailed) ∧
    (∀ g, (Game.Game c env gameCode path false w).1 = Except.ok g → g.gamePath = p) := by
  refine ⟨?_, ?_, ?_⟩
  · rintro ⟨h1, h2⟩
    rw [Game_resolved c env gameCode path w t ht p hp, refresh_ok c env _ _ h1 h2]
    exact ⟨_, rfl, rfl⟩
  · intro hn
    have hf : (Game.createHandle c env { t with gamePath := p }
          (Game.resolvePath env t path w).2).1 ≠ c.LIBLO_OK ∨
        (env.lo_get_active_plugins (Game.createHandle c env { t with gamePath := p }
          (Game.resolvePath env t path w).2).2.1).1 ≠ c.LIBLO_OK := by
      unfold providerSucceeds at hn
      by_contra hcon
      simp only [not_or, not_not] at hcon
      exact hn hcon
    rw [Game_resolved c env gameCode path w t ht p hp, (refresh_fail c env _ _ hf).1]
  · intro g hg
    rw [Game_ok_fields c env gameCode path w t ht p hp g hg]

theorem Game_resolved_asks (c : Constants) (env : Env) (gameCode : Nat) (path : String)
    (w : World) (t : Game) (ht : Game.title c gameCode = Except.ok t)
    (hid : Recognised c t.id) (p : String) (w1 : World) (l1 : List Effect)
    (hr : Game.resolvePath env t path w = (Except.ok p, w1)) (hw : w1.log = w.log ++ l1) :
    ∃ ty l, (Game.Game c env gameCode path false w).2.since w =
      l1 ++ Effect.lo_create_handle ty p :: l := by
  have hp : (Game.resolvePath env t path w).1 = Except.ok p := by rw [hr]
  obtain ⟨ty, l, hl⟩ := refresh_log_recognised c env { t with gamePath := p } w1 hid
  refine ⟨ty, l, ?_⟩
  rw [Game_resolved c env gameCode path w t ht p hp, hr]
  unfold World.since
  simp only []
  rw [hl, hw, List.append_assoc, List.drop_left]

/-! ## The claims -/

/-- C1: for every game code outside the four recognised ones, every path and every
value of the flag, the constructor throws the invalid-identifier error and leaves the
world, log of external calls included, exactly as it was; for a recognised code the
constructor does not throw that error. -/
theorem C1_invalid_identifier (c : Constants) (env : Env) (gameCode : Nat) (path : String)
    (noPathInit : Bool) (w : World) :
    (¬ Recognised c gameCode →
      Game.Game c env gameCode path noPathInit w = (Except.error InvalidGameIdentifier, w)) ∧
    (Recognised c gameCode →
      (Game.Game c env gameCode path noPathInit w).1 ≠ Except.error InvalidGameIdentifier) := by
  constructor
  · exact Game_invalid c env gameCode path noPathInit w
  · intro h
    obtain ⟨t, ht, -⟩ := title_ok c gameCode h
    cases noPathInit with
    | true => rw [Game_deferred c env gameCode path w t ht]; simp
    | false =>
      rcases resolvePath_outcome env t path w with ⟨p, hp⟩ | hp
      · rw [Game_resolved c env gameCode path w t ht p hp]
        rcases refresh_outcome c env { t with gamePath := p }
          (Game.resolvePath env t path w).2 with hr | hr
        · rw [hr]; simp
        · rw [hr]; simp [LoadOrderQueryFailed, InvalidGameIdentifier]
      · rw [Game_path_error c env gameCode path w t ht _ hp]
        simp [GamePathNotFound, InvalidGameIdentifier]

/-- Witness for C1 at code 9, which the sample constants do not recognise. -/
theorem C1_invalid_identifier_witness :
    Game.Game sampleConstants (providerReturning []) 9 "/games/Skyrim" false emptyWorld =
      (Except.error InvalidGameIdentifier, emptyWorld) :=
  (C1_invalid_identifier sampleConstants (providerReturning []) 9 "/games/Skyrim" false
    emptyWorld).1 (by decide)

/-- C2: whenever handle creation or the enumeration returns a code other than
`LIBLO_OK`, `RefreshActivePluginsList` throws the load-order-query error and the
object, `activePlugins` included, is what it was before the call. -/
theorem C2_refresh_failure_keeps_state (c : Constants) (env : Env) (g : Game) (w : World)
    (h : (g.createHandle c env w).1 ≠ c.LIBLO_OK ∨
      (env.lo_get_active_plugins (g.createHandle c env w).2.1).1 ≠ c.LIBLO_OK) :
    (g.RefreshActivePluginsList c env w).1 = Except.error LoadOrderQueryFailed ∧
      (g.RefreshActivePluginsList c env w).2.1.activePlugins = g.activePlugins := by
  obtain ⟨h1, h2⟩ := refresh_fail c env g w h
  exact ⟨h1, by rw [h2]⟩

/-- Witness for C2: handle creation answers 5 instead of `LIBLO_OK`. -/
theorem C2_refresh_failure_keeps_state_witness :
    (sampleGame.RefreshActivePluginsList sampleConstants (providerFailingCreate 5)
        emptyWorld).1 = Except.error LoadOrderQueryFailed ∧
      (sampleGame.RefreshActivePluginsList sampleConstants (providerFailingCreate 5)
        emptyWorld).2.1.activePlugins = {"old.esp"} :=
  C2_refresh_failure_keeps_state sampleConstants (providerFailingCreate 5) sampleGame
    emptyWorld (Or.inl (by decide))

/-- C3, as stated, fails: with `old.esp` in the set and the provider returning
`new.esp`, the refresh succeeds and `old.esp` is still in the set, which therefore is
not the set of lower-cased returned names. -/
theorem C3_counterexample :
    (sampleGame.RefreshActivePluginsList sampleConstants (providerReturning ["new.esp"])
        emptyWorld).1 = Except.ok () ∧
      "old.esp" ∈ (sampleGame.RefreshActivePluginsList sampleConstants
        (providerReturning ["new.esp"]) emptyWorld).2.1.activePlugins ∧
      (sampleGame.RefreshActivePluginsList sampleConstants (providerReturning ["new.esp"])
        emptyWorld).2.1.activePlugins ≠ (["new.esp"].map to_lower_copy).toFinset := by
  decide

/-- C3, amended: after a successful refresh every entry held before is still held, and
up to letter case the set is the earlier set together with the returned names
(duplicates collapse). -/
theorem C3_refresh_success_accumulates (c : Constants) (env : Env) (g : Game) (w : World)
    (h1 : (g.createHandle c env w).1 = c.LIBLO_OK)
    (h2 : (env.lo_get_active_plugins (g.createHandle c env w).2.1).1 = c.LIBLO_OK) :
    (g.RefreshActivePluginsList c env w).1 = Except.ok () ∧
      g.activePlugins ⊆ (g.RefreshActivePluginsList c env w).2.1.activePlugins ∧
      (g.RefreshActivePluginsList c env w).2.1.activePlugins.image to_lower_copy =
        g.activePlugins.image to_lower_copy ∪
          ((env.lo_get_active_plugins (g.createHandle c env w).2.1).2.map
            to_lower_copy).toFinset := by
  rw [refresh_ok c env g w h1 h2]
  simp only [insertAll_eq]
  refine ⟨trivial, Finset.subset_union_left, ?_⟩
  ext x
  simp only [Finset.mem_image, Finset.mem_union, List.mem_toFinset, List.mem_map]
  constructor
  · rintro ⟨a, ha | ha, rfl⟩
    · exact Or.inl ⟨a, ha, rfl⟩
    · exact Or.inr ⟨a, ha, rfl⟩
  · rintro (⟨a, ha, rfl⟩ | ⟨a, ha, rfl⟩)
    · exact ⟨a, Or.inl ha, rfl⟩
    · exact ⟨a, Or.inr ha, rfl⟩

/-- Witness for the amended C3: the set `old.esp` and the returned name `New.esp`. -/
theorem C3_refresh_success_accumulates_witness :
    (sampleGame.RefreshActivePluginsList sampleConstants (providerReturning ["New.esp"])
        emptyWorld).1 = Except.ok () ∧
      sampleGame.activePlugins ⊆ (sampleGame.RefreshActivePluginsList sampleConstants
        (providerReturning ["New.esp"]) emptyWorld).2.1.activePlugins ∧
      (sampleGame.RefreshActivePluginsList sampleConstants (providerReturning ["New.esp"])
        emptyWorld).2.1.activePlugins.image to_lower_copy =
        sampleGame.activePlugins.image to_lower_copy ∪
          (((providerReturning ["New.esp"]).lo_get_active_plugins
            (sampleGame.createHandle sampleConstants (providerReturning ["New.esp"])
              emptyWorld).2.1).2.map to_lower_copy).toFinset :=
  C3_refresh_success_accumulates sampleConstants (providerReturning ["New.esp"]) sampleGame
    emptyWorld (by decide) (by decide)

/-- C4 at the scenario of the specification: the Skyrim object is constructed from the
provider's answer `Skyrim.esm`, `Update.esm`, the names are stored as returned, and
`IsActive` is false for `skyrim.esm` and for the upper-cased and lower-cased forms of
the returned name `Skyrim.esm`. -/
theorem C4_scenario_evaluated :
    (Game.Game sampleConstants (providerReturning ["Skyrim.esm", "Update.esm"]) 2
        "/games/Skyrim" false emptyWorld).1 = Except.ok skyrimConstructed ∧
      skyrimConstructed.activePlugins = {"Skyrim.esm", "Update.esm"} ∧
      skyrimConstructed.IsActive "skyrim.esm" = false ∧
      skyrimConstructed.IsActive (to_upper_copy "Skyrim.esm") = false ∧
      skyrimConstructed.IsActive (to_lower_copy "Skyrim.esm") = false ∧
      skyrimConstructed.IsActive "dawnguard.esm" = false :=
  ⟨rfl, by decide, by decide, by decide, by decide, by decide⟩

/-- C7: for a recognised code and a path that was resolved to `p` (explicit, local or
from the registry), the constructor asks the provider for a handle on `p`; when handle
creation or the enumeration returns a non-OK code the constructor throws the
load-order-query error, and when both return `LIBLO_OK` it yields an object whose
`gamePath` is `p` and whose `activePlugins` are the names the provider returned. -/
theorem C7_constructor_refreshes (c : Constants) (env : Env) (gameCode : Nat)
    (path : String) (w : World) (p : String) (h : Recognised c gameCode) :
    ∃ t, Game.title c gameCode = Except.ok t ∧
      ((Game.resolvePath env t path w).1 = Except.ok p →
        (∃ ty, Game.createHandle c env { t with gamePath := p }
            (Game.resolvePath env t path w).2 =
          lo_create_handle c env ty p (Game.resolvePath env t path w).2) ∧
        (((Game.createHandle c env { t with gamePath := p }
            (Game.resolvePath env t path w).2).1 ≠ c.LIBLO_OK ∨
          (env.lo_get_active_plugins (Game.createHandle c env { t with gamePath := p }
            (Game.resolvePath env t path w).2).2.1).1 ≠ c.LIBLO_OK) →
          (Game.Game c env gameCode path false w).1 = Except.error LoadOrderQueryFailed) ∧
        (((Game.createHandle c env { t with gamePath := p }
            (Game.resolvePath env t path w).2).1 = c.LIBLO_OK ∧
          (env.lo_get_active_plugins (Game.createHandle c env { t with gamePath := p }
            (Game.resolvePath env t path w).2).2.1).1 = c.LIBLO_OK) →
          ∃ g, (Game.Game c env gameCode path false w).1 = Except.ok g ∧
            g.gamePath = p ∧
            g.activePlugins =
              (env.lo_get_active_plugins (Game.createHandle c env { t with gamePath := p }
                (Game.resolvePath env t path w).2).2.1).2.toFinset)) := by
  obtain ⟨t, ht, hid, -, -, -, hact⟩ := title_ok c gameCode h
  refine ⟨t, ht, fun hp => ⟨?_, ?_, ?_⟩⟩
  · exact createHandle_recognised c env { t with gamePath := p } _ (by rw [← hid] at h; exact h)
  · intro hf
    rw [Game_resolved c env gameCode path w t ht p hp, (refresh_fail c env _ _ hf).1]
  · rintro ⟨h1, h2⟩
    rw [Game_resolved c env gameCode path w t ht p hp, refresh_ok c env _ _ h1 h2]
    refine ⟨_, rfl, rfl, ?_⟩
    simp [insertAll_eq, hact]

/-- Witness for C7: Skyrim at `/games/Skyrim` with a provider returning two names. -/
theorem C7_constructor_refreshes_witness :
    ∃ g, (Game.Game sampleConstants (providerReturning ["Skyrim.esm", "Update.esm"]) 2
        "/games/Skyrim" false emptyWorld).1 = Except.ok g ∧
      g.gamePath = "/games/Skyrim" ∧
      g.activePlugins = ["Skyrim.esm", "Update.esm"].toFinset := by
  obtain ⟨t, ht, H⟩ := C7_constructor_refreshes sampleConstants
    (providerReturning ["Skyrim.esm", "Update.esm"]) 2 "/games/Skyrim" emptyWorld
    "/games/Skyrim" (by decide)
  have e : Game.title sampleConstants 2 = Except.ok skyrimTitle := rfl
  rw [e] at ht
  injection ht with ht
  subst ht
  exact (H rfl).2.2 ⟨by decide, by decide⟩

/-- C8, as stated, fails: with a regular file named `Skyrim` in the working location
the first call succeeds, the second call succeeds, and no directory `Skyrim` exists
after either call. -/
theorem C8_counterexample :
    (skyrimTitle.CreateBOSSGameFolder (providerReturning []) fileNamedSkyrim).1 =
      Except.ok () ∧
    (skyrimTitle.CreateBOSSGameFolder (providerReturning [])
      (skyrimTitle.CreateBOSSGameFolder (providerReturning []) fileNamedSkyrim).2).1 =
      Except.ok () ∧
    (skyrimTitle.CreateBOSSGameFolder (providerReturning [])
      (skyrimTitle.CreateBOSSGameFolder (providerReturning [])
        fileNamedSkyrim).2).2.is_directory "Skyrim" = false := by
  decide

/-- C8, amended: whenever a first call of `CreateBOSSGameFolder` succeeds, a second call
made right after it succeeds too, its only external call is the existence check (no
creation is attempted), the filesystem entries are untouched, and the entry named
`bossFolderName` is still present; it is a directory exactly if it was one after the
first call, which it is whenever no regular file of that name was there before the
first call.  A call made when the entry already exists performs the existence check
alone, and succeeds when that check answers. -/
theorem C8_create_folder_idempotent (env : Env) (g : Game) (w : World) :
    ((g.CreateBOSSGameFolder env w).1 = Except.ok () →
      g.CreateBOSSGameFolder env (g.CreateBOSSGameFolder env w).2 =
        (Except.ok (),
          (g.CreateBOSSGameFolder env w).2.record (Effect.fs_exists g.bossFolderName)) ∧
      (g.CreateBOSSGameFolder env (g.CreateBOSSGameFolder env w).2).2.entries =
        (g.CreateBOSSGameFolder env w).2.entries ∧
      ((g.CreateBOSSGameFolder env (g.CreateBOSSGameFolder env w).2).2.status
        g.bossFolderName).isSome = true ∧
      (g.CreateBOSSGameFolder env (g.CreateBOSSGameFolder env w).2).2.is_directory
          g.bossFolderName =
        (g.CreateBOSSGameFolder env w).2.is_directory g.bossFolderName ∧
      (w.status g.bossFolderName ≠ some file_type.regular_file →
        (g.CreateBOSSGameFolder env (g.CreateBOSSGameFolder env w).2).2.is_directory
          g.bossFolderName = true)) ∧
    ((w.status g.bossFolderName).isSome = true →
      (g.CreateBOSSGameFolder env w).2 = w.record (Effect.fs_exists g.bossFolderName) ∧
      (env.exists_fails g.bossFolderName = false →
        (g.CreateBOSSGameFolder env w).1 = Except.ok ())) := by
  refine ⟨?_, fun hs => ⟨createFolder_no_attempt env g w hs, fun hx => by
    rw [createFolder_present env g w hs hx]⟩⟩
  intro h
  obtain ⟨h1, h2⟩ := createFolder_first env g w h
  have h3 := createFolder_present env g (g.CreateBOSSGameFolder env w).2 h1
    (createFolder_ok_answers env g w h)
  refine ⟨h3, ?_, ?_, ?_, ?_⟩
  · rw [h3]; rfl
  · rw [h3, status_record]; exact h1
  · rw [h3]; rfl
  · intro hne
    rw [h3]
    exact h2 hne

/-- Witness for the amended C8: the Skyrim folder is created in an empty world, and the
second call only checks that it exists. -/
theorem C8_create_folder_idempotent_witness :
    skyrimTitle.CreateBOSSGameFolder (providerReturning [])
        (skyrimTitle.CreateBOSSGameFolder (providerReturning []) emptyWorld).2 =
      (Except.ok (), (skyrimTitle.CreateBOSSGameFolder (providerReturning [])
        emptyWorld).2.record (Effect.fs_exists skyrimTitle.bossFolderName)) ∧
    (skyrimTitle.CreateBOSSGameFolder (providerReturning [])
        (skyrimTitle.CreateBOSSGameFolder (providerReturning []) emptyWorld).2).2.is_directory
      "Skyrim" = true :=
  ⟨((C8_create_folder_idempotent (providerReturning []) skyrimTitle emptyWorld).1
      (by decide)).1,
    ((C8_create_folder_idempotent (providerReturning []) skyrimTitle emptyWorld).1
      (by decide)).2.2.2.2 (by decide)⟩

/-- C9, as stated, fails: starting with no open handle, a refresh that succeeds leaves
one handle open, and so does a refresh whose enumeration fails. -/
theorem C9_counterexample :
    emptyWorld.openHandles.length = 0 ∧
    (sampleGame.RefreshActivePluginsList sampleConstants (providerReturning ["new.esp"])
        emptyWorld).1 = Except.ok () ∧
    (sampleGame.RefreshActivePluginsList sampleConstants (providerReturning ["new.esp"])
        emptyWorld).2.2.openHandles.length = 1 ∧
    (sampleGame.RefreshActivePluginsList sampleConstants (providerFailingEnum 3)
        emptyWorld).1 = Except.error LoadOrderQueryFailed ∧
    (sampleGame.RefreshActivePluginsList sampleConstants (providerFailingEnum 3)
        emptyWorld).2.2.openHandles.length = 1 := by
  decide

/-- C9, amended: no execution of `RefreshActivePluginsList` releases a handle; when the
object's id is a recognised title and handle creation returns `LIBLO_OK`, the new
handle is still open when the operation returns or throws, whether the enumeration
succeeds or fails, so the call adds one open handle. -/
theorem C9_handle_stays_open (c : Constants) (env : Env) (g : Game) (w : World) :
    (∃ hs, (g.RefreshActivePluginsList c env w).2.2.openHandles = hs ++ w.openHandles) ∧
    (Recognised c g.id → (g.createHandle c env w).1 = c.LIBLO_OK →
      (g.RefreshActivePluginsList c env w).2.2.openHandles =
        (g.createHandle c env w).2.1 :: w.openHandles) := by
  constructor
  · obtain ⟨l, hs, -, h2, -, -⟩ := refresh_world c env g w
    exact ⟨hs, h2⟩
  · intro hrec hok
    obtain ⟨ty, hty⟩ := createHandle_recognised c env g w hrec
    have hopen : (g.createHandle c env w).2.2.openHandles =
        (g.createHandle c env w).2.1 :: w.openHandles := by
      rw [hty] at hok ⊢
      unfold lo_create_handle at hok ⊢
      simp only at hok
      simp [hok, World.record]
    unfold Game.RefreshActivePluginsList
    dsimp only
    split_ifs with h1 h2
    · exact absurd hok h1
    · simpa [lo_get_active_plugins, World.record] using hopen
    · simpa [lo_get_active_plugins, World.record] using hopen

/-- Witness for the amended C9: the handle 7 opened for Skyrim stays open after the
enumeration fails. -/
theorem C9_handle_stays_open_witness :
    (sampleGame.RefreshActivePluginsList sampleConstants (providerFailingEnum 3)
        emptyWorld).2.2.openHandles = [7] :=
  (C9_handle_stays_open sampleConstants (providerFailingEnum 3) sampleGame emptyWorld).2
    (by decide) (by decide)

/-- C10: `IsActive` gives the same answer for two names with the same lower-cased form,
it is true exactly when the lower-cased form of the name is an element of
`activePlugins`, and it is false for every name on an object constructed with path
resolution deferred. -/
theorem C10_IsActive_lower_case_lookup (c : Constants) (env : Env) (gameCode : Nat)
    (path : String) (w : World) (g : Game) (p q : String) :
    (to_lower_copy p = to_lower_copy q → g.IsActive p = g.IsActive q) ∧
    (g.IsActive p = true ↔ to_lower_copy p ∈ g.activePlugins) ∧
    ((Game.Game c env gameCode path true w).1 = Except.ok g → g.IsActive p = false) := by
  refine ⟨?_, ?_, ?_⟩
  · intro hpq
    unfold Game.IsActive
    rw [hpq]
  · simp [Game.IsActive]
  · intro hg
    by_cases hrec : Recognised c gameCode
    · obtain ⟨t, ht, -, -, -, -, hact⟩ := title_ok c gameCode hrec
      rw [Game_deferred c env gameCode path w t ht] at hg
      simp only [Except.ok.injEq] at hg
      subst hg
      simp [Game.IsActive, hact]
    · rw [(Game_invalid c env gameCode path true w hrec)] at hg
      simp at hg

/-- Witness for C10: `Skyrim.esm` and `SKYRIM.ESM` on the deferred Skyrim object. -/
theorem C10_IsActive_lower_case_lookup_witness :
    skyrimTitle.IsActive "Skyrim.esm" = skyrimTitle.IsActive "SKYRIM.ESM" ∧
    skyrimTitle.IsActive "Skyrim.esm" = false :=
  ⟨(C10_IsActive_lower_case_lookup sampleConstants (providerReturning []) 2 "" emptyWorld
      skyrimTitle "Skyrim.esm" "SKYRIM.ESM").1 (by decide),
    (C10_IsActive_lower_case_lookup sampleConstants (providerReturning []) 2 "" emptyWorld
      skyrimTitle "Skyrim.esm" "SKYRIM.ESM").2.2 rfl⟩

end boss
